import Mathlib

/-!
Verification of the authentication/session subsystem of the wirenew storefront.

The development shallowly embeds the customer auth flow (`UserAuthProvider`:
`signup`, `verifyOtp`, `login`), the admin auth flow (`OwnerAuthProvider`:
`login`, `logout`, the storage-event listener and the auth-state bootstrap),
and the identity-directory helpers (`ensureUserProfileExists`,
`saveUserProfile`, `getUserProfileData`, `findUserByPhoneNumber`).

External collaborators are modelled by their documented contracts:
the document store's merge-write (`setDoc` with merge) overwrites exactly the
fields present in the write and keeps all others; `serverTimestamp()` is the
current time, threaded as an explicit `now : Nat` (milliseconds);
the backend authentication primitive is a finite table of credentials;
the Web Crypto SHA-256 digest is modelled as an injective tagging of its
input, matching its contract (deterministic, collision-free on the 6-digit
code space); local storage holds typed values in place of their JSON
serializations.
-/

namespace Wirenew

/-- Whitespace as recognised by the JavaScript string `trim`/`\s` class
(restricted to the ASCII range, which covers every input in this development). -/
def isJsWhitespace (c : Char) : Bool :=
  c = ' ' || c = '\t' || c = '\n' || c = '\r' || c.toNat = 11 || c.toNat = 12

/-- Model of JavaScript `String.prototype.trim`. -/
def jsTrim (s : String) : String :=
  String.mk (((s.data.dropWhile isJsWhitespace).reverse.dropWhile isJsWhitespace).reverse)

/-- Split a character list at every occurrence of `sep` (occurrences deleted). -/
def splitOnChar (sep : Char) : List Char → List (List Char)
  | [] => [[]]
  | c :: cs =>
    let r := splitOnChar sep cs
    if c = sep then [] :: r
    else
      match r with
      | [] => [[c]]
      | g :: gs => (c :: g) :: gs

/-- Special characters admitted in the local part of the source's email
regular expression, by ASCII code. -/
def isLocalSpecialCode (n : Nat) : Bool :=
  n = 33 || n = 35 || n = 36 || n = 37 || n = 38 || n = 39 || n = 42 || n = 43 ||
  n = 45 || n = 46 || n = 47 || n = 61 || n = 63 || n = 94 || n = 95 || n = 96 ||
  n = 123 || n = 124 || n = 125 || n = 126

/-- Characters admitted in the local part of an email address. -/
def isLocalChar (c : Char) : Bool := c.isAlphanum || isLocalSpecialCode c.toNat

/-- A domain label: nonempty, alphanumeric or hyphen. -/
def isDomainLabel (l : List Char) : Bool :=
  (!l.isEmpty) && l.all (fun c => c.isAlphanum || c = '-')

/-- The trailing domain segment: at least two letters. -/
def isTld (l : List Char) : Bool :=
  decide (2 ≤ l.length) && l.all (fun c => c.isAlpha)

/-- Dot-separated domain segments: at least one label followed by a TLD. -/
def checkDomainParts : List (List Char) → Bool
  | [] => false
  | [_] => false
  | [l, t] => isDomainLabel l && isTld t
  | l :: rest => isDomainLabel l && checkDomainParts rest

/-- `isValidEmail` from the source: the trimmed value must be
`local@label(.label)*.tld` with the source regular expression's character
classes. -/
def isValidEmail (value : String) : Bool :=
  match splitOnChar '@' (jsTrim value).data with
  | [localPart, domainPart] =>
    (!localPart.isEmpty) && localPart.all isLocalChar &&
      checkDomainParts (splitOnChar '.' domainPart)
  | _ => false

/-- Characters removed by the source's phone normalisation (`\s` and hyphen). -/
def isPhoneStripChar (c : Char) : Bool := isJsWhitespace c || c = '-'

/-- `isValidPhone` from the source: after trimming and removing whitespace and
hyphens, exactly 10 digits with a leading digit in 6..9. -/
def isValidPhone (value : String) : Bool :=
  match (jsTrim value).data.filter (fun c => !isPhoneStripChar c) with
  | [] => false
  | c :: rest =>
    decide ('6' ≤ c) && decide (c ≤ '9') && decide (rest.length = 9) &&
      rest.all Char.isDigit

/-- The source's 6-digit code format check `^[0-9]{6}$`. -/
def sixDigits (s : String) : Bool :=
  decide (s.data.length = 6) && s.data.all Char.isDigit

/-- Digest of a submitted code (`hashOtp` in the source). The source delegates
to the Web Crypto SHA-256 hex digest, an external platform primitive; it is
modelled here as an injective tagging of the input, which realises the
hasher's contract (deterministic, one-way comparison by equality, collision
free on the 6-digit code space that the flow retains). -/
def hashOtp (otp : String) : String := "sha256:" ++ otp

/-- The fixed well-known test verification code. -/
def TEST_OTP : String := "123456"

/-- The fixed privileged Account Identifier (`ADMIN_UID` in the source). -/
def ADMIN_UID : String := "IlrRPiSdkJdtwHpnmTk1E0Q2X3f1"

/-- A `user_profiles` document (`UserProfileData` plus the admin-profile
fields `role`, `isAdmin`, `lastLoginAt` written by the owner flow). Every
field is optional, as in a document-store record. Timestamps are
milliseconds. -/
structure UserProfileData where
  uid : Option String := none
  fullName : Option String := none
  email : Option String := none
  phoneNumber : Option String := none
  address : Option String := none
  city : Option String := none
  state : Option String := none
  pincode : Option String := none
  companyName : Option String := none
  businessType : Option String := none
  gstNumber : Option String := none
  verified : Option Bool := none
  createdAt : Option Nat := none
  updatedAt : Option Nat := none
  role : Option String := none
  isAdmin : Option Bool := none
  lastLoginAt : Option Nat := none
deriving DecidableEq

/-- The record with no field set. -/
def emptyProfile : UserProfileData := {}

/-- Field-wise merge of a write `w` into an existing record `old`: a field
present in the write overwrites, an absent field is kept. This is the
documented behaviour of the document store's `setDoc` with the merge
option. -/
def mergeProfile (old w : UserProfileData) : UserProfileData where
  uid := w.uid <|> old.uid
  fullName := w.fullName <|> old.fullName
  email := w.email <|> old.email
  phoneNumber := w.phoneNumber <|> old.phoneNumber
  address := w.address <|> old.address
  city := w.city <|> old.city
  state := w.state <|> old.state
  pincode := w.pincode <|> old.pincode
  companyName := w.companyName <|> old.companyName
  businessType := w.businessType <|> old.businessType
  gstNumber := w.gstNumber <|> old.gstNumber
  verified := w.verified <|> old.verified
  createdAt := w.createdAt <|> old.createdAt
  updatedAt := w.updatedAt <|> old.updatedAt
  role := w.role <|> old.role
  isAdmin := w.isAdmin <|> old.isAdmin
  lastLoginAt := w.lastLoginAt <|> old.lastLoginAt

/-- The `user_profiles` collection: documents keyed by Account Identifier. -/
def Directory : Type := List (String × UserProfileData)

instance : DecidableEq Directory := by
  unfold Directory
  infer_instance

/-- Document read by key. -/
def dirGet : Directory → String → Option UserProfileData
  | [], _ => none
  | (k, p) :: rest, uid => if k = uid then some p else dirGet rest uid

/-- `setDoc` with the merge option: merge into the existing document, or
create the document from the write if absent. -/
def dirSetMerge : Directory → String → UserProfileData → Directory
  | [], k, w => [(k, mergeProfile emptyProfile w)]
  | (k', p) :: rest, k, w =>
    if k' = k then (k', mergeProfile p w) :: rest
    else (k', p) :: dirSetMerge rest k w

/-- `ensureUserProfileExists` from the source: a merge-write that always sets
`uid` (unless the caller supplied one), always sets `verified` (defaulting a
missing flag to `false`), and always stamps both `updatedAt` and `createdAt`
with the current server time. -/
def ensureUserProfileExists (now : Nat) (userId : String) (profileData : UserProfileData)
    (d : Directory) : Directory :=
  dirSetMerge d userId
    { profileData with
        uid := profileData.uid <|> some userId
        verified := some (profileData.verified.getD false)
        updatedAt := some now
        createdAt := some now }

/-- `saveUserProfile` from the source: a merge-write that always sets `uid`
(unless supplied) and stamps `updatedAt`. -/
def saveUserProfile (now : Nat) (userId : String) (profileData : UserProfileData)
    (d : Directory) : Directory :=
  dirSetMerge d userId
    { profileData with
        uid := profileData.uid <|> some userId
        updatedAt := some now }

/-- `getUserProfileData` from the source: returns the document, or `none`
both when the document is absent and when the read fails (the source catches
the error and returns `null`); the `fail` flag injects the latter case. -/
def getUserProfileData (fail : Bool) (d : Directory) (userId : String) :
    Option UserProfileData :=
  if fail then none else dirGet d userId

/-- Result of the phone-to-account lookup. -/
structure FoundUser where
  uid : String
  email : Option String
deriving DecidableEq

/-- `findUserByPhoneNumber` from the source: first document whose
`phoneNumber` field equals the query; the result's `uid` falls back to the
document id when the field is missing or empty (`data.uid || doc.id`). -/
def findUserByPhoneNumber : Directory → String → Option FoundUser
  | [], _ => none
  | (docId, p) :: rest, phone =>
    if p.phoneNumber = some phone then
      some { uid := match p.uid with
               | some u => if u = "" then docId else u
               | none => docId,
             email := p.email }
    else findUserByPhoneNumber rest phone

instance {ε α : Type} [DecidableEq ε] [DecidableEq α] : DecidableEq (Except ε α) := fun x y =>
  match x, y with
  | .ok a, .ok b =>
    if h : a = b then .isTrue (by rw [h]) else .isFalse (by intro hc; cases hc; exact h rfl)
  | .error e, .error e' =>
    if h : e = e' then .isTrue (by rw [h]) else .isFalse (by intro hc; cases hc; exact h rfl)
  | .ok _, .error _ => .isFalse (by intro hc; cases hc)
  | .error _, .ok _ => .isFalse (by intro hc; cases hc)

/-- An account of the backend authentication primitive. -/
structure BackendAccount where
  email : String
  password : String
  uid : String
deriving DecidableEq

/-- The backend authentication primitive (external collaborator): a table of
registered credentials plus the opaque identifier it will issue to the next
created credential. -/
structure Backend where
  accounts : List BackendAccount
  newUid : String
deriving DecidableEq

/-- Failures of the backend's sign-in primitive
(`auth/user-not-found`, `auth/wrong-password`). -/
inductive SignInFailure
  | userNotFound
  | wrongPassword
deriving DecidableEq

/-- `signInWithEmailAndPassword`: resolve the account registered under the
email, then check the password; the same credential always resolves to the
same identifier. -/
def signIn (b : Backend) (email password : String) : Except SignInFailure String :=
  match b.accounts.find? (fun a => decide (a.email = email)) with
  | none => .error .userNotFound
  | some a => if a.password = password then .ok a.uid else .error .wrongPassword

/-- Failure of the backend's create-credential primitive
(`auth/email-already-in-use`). -/
inductive CreateUserFailure
  | emailAlreadyInUse
deriving DecidableEq

/-- `createUserWithEmailAndPassword`: register a new credential under a fresh
backend-issued identifier, or fail when the email is already registered. -/
def createUser (b : Backend) (email password : String) :
    Except CreateUserFailure (String × Backend) :=
  if b.accounts.any (fun a => decide (a.email = email)) then
    .error .emailAlreadyInUse
  else
    .ok (b.newUid, { b with accounts := b.accounts ++ [⟨email, password, b.newUid⟩] })

/-- `PendingOTP` from the source: the transient Pending Verification. -/
structure PendingOTP where
  otpHash : String
  expiresAt : Nat
  attempts : Nat
  userId : String
  phoneNumber : String
deriving DecidableEq

/-- `UserProfile` from the source: a profile record together with the Account
Identifier it is keyed by. -/
structure UserProfile where
  id : String
  data : UserProfileData
deriving DecidableEq

/-- `SignupData` from the source. -/
structure SignupData where
  fullName : String
  email : String
  password : String
  phoneNumber : String
deriving DecidableEq

/-- State of the customer auth flow: the in-memory user and Pending
Verification, the two local-storage entries (Session Record and
Pending-Verification trace, held as typed values in place of their JSON
serializations), and the identity directory. -/
structure CustState where
  user : Option UserProfile
  pendingOtp : Option PendingOTP
  storedUser : Option UserProfile
  storedOtp : Option (String × String)
  dir : Directory
deriving DecidableEq

/-- The derived authenticated boolean from the source:
`Boolean(user && user.verified)`. -/
def CustState.isAuthenticated (s : CustState) : Bool :=
  match s.user with
  | some u => u.data.verified.getD false
  | none => false

/-- Error taxonomy of the customer flow, one constructor per distinct thrown
condition. -/
inductive AuthError
  | invalidEmailInput
  | invalidPhoneInput
  | passwordTooShort
  | alreadyRegistered
  | noPending
  | expired
  | tooManyAttempts
  | badFormat
  | incorrectCode
  | notFound
  | invalidCredentials
  | invalidEmailOrPhone
  | backendFailure
deriving DecidableEq

/-- The state produced by `signup` once backend authentication has yielded an
identifier: the profile upsert with `verified := false`, the fresh Pending
Verification hashing the fixed test code with a 10-minute expiry and zero
attempts, and the local-storage trace of the pending target. -/
def signupAfterAuth (now : Nat) (d : SignupData) (uid : String) (s : CustState) : CustState :=
  { s with
      dir := ensureUserProfileExists now uid
        { emptyProfile with
            fullName := some d.fullName
            email := some d.email
            phoneNumber := some d.phoneNumber
            verified := some false } s.dir
      pendingOtp := some
        { otpHash := hashOtp TEST_OTP
          expiresAt := now + 10 * 60 * 1000
          attempts := 0
          userId := uid
          phoneNumber := d.phoneNumber }
      storedOtp := some (uid, d.phoneNumber) }

/-- `signup` from the source: input validation, credential creation with the
returning-user fallback on `auth/email-already-in-use`, then
`signupAfterAuth`. -/
def signup (now : Nat) (d : SignupData) (s : CustState) (b : Backend) :
    Except AuthError (CustState × Backend) :=
  if isValidEmail d.email = false then .error .invalidEmailInput
  else if isValidPhone d.phoneNumber = false then .error .invalidPhoneInput
  else if d.password.length < 6 then .error .passwordTooShort
  else
    match createUser b d.email d.password with
    | .ok (uid, b') => .ok (signupAfterAuth now d uid s, b')
    | .error _ =>
      match signIn b d.email d.password with
      | .ok uid => .ok (signupAfterAuth now d uid s, b)
      | .error _ => .error .alreadyRegistered

/-- `verifyOtp` from the source. Errors carry the post-state, since the
expiry and attempt-limit failures discard the Pending Verification and a
hash mismatch increments its counter. `readFail` injects a failing
profile read in the success path (the source's `getUserProfileData`
returns `null` on a read error). -/
def verifyOtp (readFail : Bool) (now : Nat) (otp : String) (s : CustState) :
    Except (AuthError × CustState) CustState :=
  match s.pendingOtp with
  | none => .error (.noPending, s)
  | some p =>
    if p.expiresAt < now then
      .error (.expired, { s with pendingOtp := none })
    else if 4 ≤ p.attempts then
      .error (.tooManyAttempts, { s with pendingOtp := none })
    else if sixDigits (jsTrim otp) = false then
      .error (.badFormat, s)
    else if hashOtp (jsTrim otp) ≠ p.otpHash then
      .error (.incorrectCode, { s with pendingOtp := some { p with attempts := p.attempts + 1 } })
    else
      let dir' := ensureUserProfileExists now p.userId
        { emptyProfile with phoneNumber := some p.phoneNumber, verified := some true } s.dir
      let s' :=
        match getUserProfileData readFail dir' p.userId with
        | some pd =>
          { s with dir := dir', user := some ⟨p.userId, pd⟩, storedUser := some ⟨p.userId, pd⟩ }
        | none => { s with dir := dir' }
      .ok { s' with pendingOtp := none, storedOtp := none }

/-- Tail of `login` once an email has been determined: backend sign-in, then
the profile read that populates the in-memory user and Session Record only
when the profile exists and is verified. -/
def loginWithEmail (email password : String) (s : CustState) (b : Backend) :
    Except AuthError CustState :=
  match signIn b email password with
  | .error _ => .error .invalidCredentials
  | .ok uid =>
    match getUserProfileData false s.dir uid with
    | some pd =>
      if pd.verified.getD false then
        .ok { s with user := some ⟨uid, pd⟩, storedUser := some ⟨uid, pd⟩ }
      else .ok s
    | none => .ok s

/-- `login` from the source: an input that is not a valid email is treated as
a phone number and resolved to the email on file through the directory. -/
def login (emailOrPhone password : String) (s : CustState) (b : Backend) :
    Except AuthError CustState :=
  if isValidEmail emailOrPhone then loginWithEmail (jsTrim emailOrPhone) password s b
  else if isValidPhone emailOrPhone then
    match findUserByPhoneNumber s.dir (jsTrim emailOrPhone) with
    | none => .error .notFound
    | some fu =>
      match fu.email with
      | some em => loginWithEmail em password s b
      | none => .error .backendFailure
  else .error .invalidEmailOrPhone

/-- Local-storage key of the cached admin-authenticated flag. -/
def OWNER_AUTH_STORAGE_KEY : String := "owner-dashboard-authenticated"

/-- Local-storage key of the cached admin Account Identifier. -/
def OWNER_UID_KEY : String := "owner-uid"

/-- Local-storage key of the cached short-lived bearer credential. -/
def FIREBASE_TOKEN_KEY : String := "firebase_id_token"

/-- State of the admin auth flow: the in-memory authenticated flag and
identifier, the three cached local-storage entries (the Admin Session Record
plus the bearer credential), the backend session (`auth.currentUser`), and
the identity directory the admin profile lives in. -/
structure OwnerState where
  isAuthenticated : Bool
  userId : Option String
  lsAuthFlag : Option String
  lsUid : Option String
  lsToken : Option String
  backendUser : Option String
  dir : Directory
deriving DecidableEq

/-- Outcome of the admin `login` (the source returns a boolean and reports
the failure kind through its message). -/
inductive OwnerLoginOutcome
  | success
  | notAuthorized
  | invalidCredentials
deriving DecidableEq

/-- The admin-profile upsert performed by the owner `login`: create the
profile with the privilege flag when absent or unmarked, else touch only the
last-login and update timestamps. -/
def adminProfileUpsert (now : Nat) (email : String) (d : Directory) : Directory :=
  let marked :=
    match dirGet d ADMIN_UID with
    | some p => decide (p.role = some "admin") || decide (p.isAdmin = some true)
    | none => false
  if marked then
    dirSetMerge d ADMIN_UID
      { emptyProfile with uid := some ADMIN_UID, lastLoginAt := some now, updatedAt := some now }
  else
    dirSetMerge d ADMIN_UID
      { emptyProfile with
          uid := some ADMIN_UID
          email := some email
          role := some "admin"
          isAdmin := some true
          createdAt := some now
          updatedAt := some now }

/-- `OwnerAuthProvider.login` from the source: backend sign-in on the trimmed
credentials; a resolved identifier other than the fixed privileged one signs
out of the backend and fails; otherwise the admin profile is upserted, the
bearer credential is best-effort cached (`tok = none` models the swallowed
token failure), and the Admin Session Record is set. -/
def ownerLogin (now : Nat) (b : Backend) (email password : String) (tok : Option String)
    (s : OwnerState) : OwnerLoginOutcome × OwnerState :=
  match signIn b (jsTrim email) (jsTrim password) with
  | .error _ => (.invalidCredentials, s)
  | .ok uid =>
    if uid ≠ ADMIN_UID then
      (.notAuthorized, { s with backendUser := none })
    else
      let s1 := { s with backendUser := some uid, dir := adminProfileUpsert now (jsTrim email) s.dir }
      let s2 := match tok with
        | some t => { s1 with lsToken := some t }
        | none => s1
      (.success, { s2 with
                     userId := some ADMIN_UID
                     isAuthenticated := true
                     lsAuthFlag := some "true"
                     lsUid := some ADMIN_UID })

/-- `handleStorage` from the source: the cross-tab storage-event listener
mirrors the cached flag and identifier into the in-memory admin state,
with no identifier check. -/
def handleStorage (key : String) (newValue : Option String) (s : OwnerState) : OwnerState :=
  let s1 := if key = OWNER_AUTH_STORAGE_KEY then
    { s with isAuthenticated := decide (newValue = some "true") } else s
  if key = OWNER_UID_KEY then { s1 with userId := newValue } else s1

/-- An external (other-document) write to local storage, as signalled by a
storage event: the cached entry itself changes. -/
def applyExternalStorage (key : String) (newValue : Option String) (s : OwnerState) : OwnerState :=
  let s1 := if key = OWNER_AUTH_STORAGE_KEY then { s with lsAuthFlag := newValue } else s
  let s2 := if key = OWNER_UID_KEY then { s1 with lsUid := newValue } else s1
  if key = FIREBASE_TOKEN_KEY then { s2 with lsToken := newValue } else s2

/-- The owner bootstrap's `onAuthStateChanged` callback: when a backend user
is notified, the cached flag is `"true"`, the notified identifier equals the
fixed privileged one, and the admin profile confirms the privilege flag, the
Admin Session Record is re-established (with a best-effort token refresh). -/
def ownerAuthChanged (fu : Option String) (tok : Option String) (s : OwnerState) : OwnerState :=
  match fu with
  | none => s
  | some uid =>
    if s.lsAuthFlag = some "true" ∧ uid = ADMIN_UID then
      match dirGet s.dir ADMIN_UID with
      | some p =>
        if p.role = some "admin" ∨ p.isAdmin = some true then
          let s1 := match tok with
            | some t => { s with lsToken := some t }
            | none => s
          { s1 with userId := some ADMIN_UID, lsUid := some ADMIN_UID, isAuthenticated := true }
        else s
      | none => s
    else s

/-- `OwnerAuthProvider.logout` from the source: clear the in-memory state,
the three cached entries, and best-effort sign out of the backend. -/
def ownerLogout (s : OwnerState) : OwnerState :=
  { s with
      isAuthenticated := false
      userId := none
      lsAuthFlag := none
      lsUid := none
      lsToken := none
      backendUser := none }

/-- The events that can change the admin auth state. -/
inductive OwnerEvent
  | loginEv (email password : String) (tok : Option String)
  | storageEv (key : String) (newValue : Option String)
  | authChangedEv (fu : Option String) (tok : Option String)
  | logoutEv
deriving DecidableEq

/-- One transition of the admin auth flow. -/
def ownerStep (now : Nat) (b : Backend) (e : OwnerEvent) (s : OwnerState) : OwnerState :=
  match e with
  | .loginEv em pw tok => (ownerLogin now b em pw tok s).2
  | .storageEv k v => handleStorage k v (applyExternalStorage k v s)
  | .authChangedEv fu tok => ownerAuthChanged fu tok s
  | .logoutEv => ownerLogout s

/-- Reading back the key just merge-written returns the merge of the previous
document (or the empty one) with the write. -/
theorem dirGet_dirSetMerge_self (d : Directory) (k : String) (w : UserProfileData) :
    dirGet (dirSetMerge d k w) k = some (mergeProfile ((dirGet d k).getD emptyProfile) w) := by
  induction d with
  | nil => simp [dirSetMerge, dirGet]
  | cons hd tl ih =>
    obtain ⟨k', p⟩ := hd
    by_cases h : k' = k
    · simp [dirSetMerge, dirGet, h]
    · simp [dirSetMerge, dirGet, h, ih]

/-- The derived authenticated boolean reads only the in-memory user. -/
theorem isAuthenticated_pendingOtp (s : CustState) (o : Option PendingOTP) :
    CustState.isAuthenticated { s with pendingOtp := o } = s.isAuthenticated := rfl

/-- Core of testable property 1: on the state `signup` leaves behind, an
immediate `verifyOtp` with the fixed test code succeeds, authenticates, and
marks the stored profile verified. -/
theorem verifyOtp_testcode_after_signup (now now2 : Nat) (d : SignupData) (uid : String)
    (s : CustState) (ht : now2 ≤ now + 10 * 60 * 1000) :
    ∃ s2, verifyOtp false now2 TEST_OTP (signupAfterAuth now d uid s) = .ok s2 ∧
      s2.isAuthenticated = true ∧
      ∃ pd, dirGet s2.dir uid = some pd ∧ pd.verified = some true := by
  have hexp : ¬ (now + 10 * 60 * 1000 < now2) := by omega
  simp only [signupAfterAuth, verifyOtp]
  rw [if_neg hexp]
  rw [if_neg (by decide : ¬ (4 ≤ 0))]
  rw [if_neg (by decide : ¬ (sixDigits (jsTrim TEST_OTP) = false))]
  rw [if_neg (by decide : ¬ (hashOtp (jsTrim TEST_OTP) ≠ hashOtp TEST_OTP))]
  simp only [getUserProfileData, ensureUserProfileExists, if_neg Bool.false_ne_true]
  rw [dirGet_dirSetMerge_self]
  exact ⟨_, rfl, rfl, _, dirGet_dirSetMerge_self _ _ _, rfl⟩

/-- C1: for every signup input with a valid email, a valid phone number and a
password of length at least 6, whenever `signup` succeeds, an immediate
`verifyOtp` with the fixed test code `"123456"` succeeds, the derived
authenticated boolean becomes true, and the stored Profile Record of the
issued Account Identifier has `verified = true`. -/
theorem signup_then_verifyOtp_authenticates (now now2 : Nat) (d : SignupData)
    (s s1 : CustState) (b b1 : Backend)
    (hE : isValidEmail d.email = true) (hP : isValidPhone d.phoneNumber = true)
    (hL : 6 ≤ d.password.length)
    (hs : signup now d s b = .ok (s1, b1))
    (ht : now2 ≤ now + 10 * 60 * 1000) :
    ∃ p, s1.pendingOtp = some p ∧
      ∃ s2, verifyOtp false now2 TEST_OTP s1 = .ok s2 ∧
        s2.isAuthenticated = true ∧
        ∃ pd, dirGet s2.dir p.userId = some pd ∧ pd.verified = some true := by
  rw [signup] at hs
  rw [if_neg (by rw [hE]; decide)] at hs
  rw [if_neg (by rw [hP]; decide)] at hs
  rw [if_neg (by omega)] at hs
  rcases hcu : createUser b d.email d.password with e | ⟨uid, b'⟩
  · rw [hcu] at hs
    rcases hsi : signIn b d.email d.password with e' | uid
    · rw [hsi] at hs
      cases hs
    · rw [hsi] at hs
      cases hs
      exact ⟨_, rfl, verifyOtp_testcode_after_signup now now2 d uid s ht⟩
  · rw [hcu] at hs
    cases hs
    exact ⟨_, rfl, verifyOtp_testcode_after_signup now now2 d uid s ht⟩

/-- A concrete valid signup input. -/
def sigData : SignupData :=
  { fullName := "Asha Rao", email := "a@b.co", password := "secret1", phoneNumber := "9876543210" }

/-- The empty initial customer state. -/
def s0 : CustState :=
  { user := none, pendingOtp := none, storedUser := none, storedOtp := none, dir := [] }

/-- A backend with no registered account, about to issue `"u1"`. -/
def b0 : Backend := { accounts := [], newUid := "u1" }

/-- The customer state `signup` produces on `sigData` at time 0. -/
def s1Sig : CustState := signupAfterAuth 0 sigData "u1" s0

/-- The backend state after that signup. -/
def b1Sig : Backend := { accounts := [⟨"a@b.co", "secret1", "u1"⟩], newUid := "u1" }

/-- Witness for C1 at the concrete signup input `sigData`. -/
theorem signup_then_verifyOtp_authenticates_witness :
    ∃ p, s1Sig.pendingOtp = some p ∧
      ∃ s2, verifyOtp false 0 TEST_OTP s1Sig = .ok s2 ∧
        s2.isAuthenticated = true ∧
        ∃ pd, dirGet s2.dir p.userId = some pd ∧ pd.verified = some true :=
  signup_then_verifyOtp_authenticates 0 0 sigData s0 s1Sig b0 b1Sig (by decide) (by decide)
    (by decide) (by decide) (by decide)

/-- Step lemma: with no Pending Verification, `verifyOtp` fails with the
no-pending condition and changes nothing. -/
theorem verifyOtp_noPending (rf : Bool) (now : Nat) (c : String) (s : CustState)
    (hp : s.pendingOtp = none) :
    verifyOtp rf now c s = .error (.noPending, s) := by
  simp only [verifyOtp, hp]

/-- Step lemma: past expiry, `verifyOtp` fails with the expired condition and
discards the Pending Verification. -/
theorem verifyOtp_expired (rf : Bool) (now : Nat) (c : String) (s : CustState) (p : PendingOTP)
    (hp : s.pendingOtp = some p) (hlt : p.expiresAt < now) :
    verifyOtp rf now c s = .error (.expired, { s with pendingOtp := none }) := by
  simp only [verifyOtp, hp]
  rw [if_pos hlt]

/-- Step lemma: at four or more recorded attempts, `verifyOtp` fails with the
too-many-attempts condition and discards the Pending Verification. -/
theorem verifyOtp_tooMany (rf : Bool) (now : Nat) (c : String) (s : CustState) (p : PendingOTP)
    (hp : s.pendingOtp = some p) (hexp : ¬ p.expiresAt < now) (hatt : 4 ≤ p.attempts) :
    verifyOtp rf now c s = .error (.tooManyAttempts, { s with pendingOtp := none }) := by
  simp only [verifyOtp, hp]
  rw [if_neg hexp, if_pos hatt]

/-- Step lemma: an active, unexpired Pending Verification below the attempt
limit, given a well-formed code whose hash mismatches, yields the
incorrect-code failure with the attempt counter incremented and nothing else
changed. -/
theorem verifyOtp_wrong_step (rf : Bool) (now : Nat) (c : String) (s : CustState) (p : PendingOTP)
    (hp : s.pendingOtp = some p) (hexp : ¬ p.expiresAt < now) (hatt : p.attempts < 4)
    (hfmt : sixDigits (jsTrim c) = true) (hhash : hashOtp (jsTrim c) ≠ p.otpHash) :
    verifyOtp rf now c s =
      .error (.incorrectCode, { s with pendingOtp := some { p with attempts := p.attempts + 1 } }) := by
  simp only [verifyOtp, hp]
  rw [if_neg hexp, if_neg (by omega), if_neg (by simp [hfmt]), if_pos hhash]

/-- C8: on an active, unexpired Pending Verification with fewer than 4
attempts, a well-formed 6-digit code with a mismatching hash fails with the
incorrect-code condition; the attempt counter grows by exactly one while the
hash, expiry, target identifier and phone number are unchanged, the
in-memory user is untouched, and the derived authenticated boolean stays
false. -/
theorem wrong_code_increments_attempts (rf : Bool) (now : Nat) (c : String)
    (s : CustState) (p : PendingOTP)
    (hp : s.pendingOtp = some p) (hexp : ¬ p.expiresAt < now) (hatt : p.attempts < 4)
    (hfmt : sixDigits (jsTrim c) = true) (hhash : hashOtp (jsTrim c) ≠ p.otpHash)
    (hauth : s.isAuthenticated = false) :
    ∃ s' q, verifyOtp rf now c s = .error (.incorrectCode, s') ∧
      s'.pendingOtp = some q ∧ q.attempts = p.attempts + 1 ∧ q.otpHash = p.otpHash ∧
      q.expiresAt = p.expiresAt ∧ q.userId = p.userId ∧ q.phoneNumber = p.phoneNumber ∧
      s'.user = s.user ∧ s'.isAuthenticated = false := by
  refine ⟨{ s with pendingOtp := some { p with attempts := p.attempts + 1 } },
          { p with attempts := p.attempts + 1 },
          verifyOtp_wrong_step rf now c s p hp hexp hatt hfmt hhash,
          rfl, rfl, rfl, rfl, rfl, rfl, rfl, ?_⟩
  rw [isAuthenticated_pendingOtp]
  exact hauth

/-- A fresh Pending Verification for `"u1"`, created at time 0. -/
def pend3 : PendingOTP :=
  { otpHash := hashOtp TEST_OTP, expiresAt := 600000, attempts := 0,
    userId := "u1", phoneNumber := "9876543210" }

/-- A customer state holding only that fresh Pending Verification. -/
def s3 : CustState := { s0 with pendingOtp := some pend3 }

/-- Witness for C8 at the concrete wrong code `"000000"`. -/
theorem wrong_code_increments_attempts_witness :
    ∃ s' q, verifyOtp false 0 "000000" s3 = .error (.incorrectCode, s') ∧
      s'.pendingOtp = some q ∧ q.attempts = pend3.attempts + 1 ∧ q.otpHash = pend3.otpHash ∧
      q.expiresAt = pend3.expiresAt ∧ q.userId = pend3.userId ∧
      q.phoneNumber = pend3.phoneNumber ∧
      s'.user = s3.user ∧ s'.isAuthenticated = false :=
  wrong_code_increments_attempts false 0 "000000" s3 pend3 rfl (by decide) (by decide)
    (by decide) (by decide) (by decide)

/-- Post-state of a `verifyOtp` call, on success or failure. -/
def stepState (rf : Bool) (now : Nat) (c : String) (s : CustState) : CustState :=
  match verifyOtp rf now c s with
  | .ok s' => s'
  | .error (_, s') => s'

/-- Error raised by a `verifyOtp` call, if any. -/
def errKind (x : Except (AuthError × CustState) CustState) : Option AuthError :=
  match x with
  | .error (e, _) => some e
  | .ok _ => none

/-- The state after `n` wrong-code `verifyOtp` calls on the fresh pending
state `s3`. -/
def wrongN : Nat → CustState
  | 0 => s3
  | n + 1 => stepState false 0 "000000" (wrongN n)

/-- Counterexample to C3 as stated: on a fresh Pending Verification, 4
consecutive wrong-code calls each fail with the incorrect-code condition and
leave the Pending Verification in place with 4 recorded attempts — it is not
discarded — and the 5th call fails with the too-many-attempts condition, not
with the no-pending condition. -/
theorem fourth_wrong_attempt_keeps_pending :
    errKind (verifyOtp false 0 "000000" (wrongN 0)) = some .incorrectCode ∧
    errKind (verifyOtp false 0 "000000" (wrongN 1)) = some .incorrectCode ∧
    errKind (verifyOtp false 0 "000000" (wrongN 2)) = some .incorrectCode ∧
    errKind (verifyOtp false 0 "000000" (wrongN 3)) = some .incorrectCode ∧
    (wrongN 4).pendingOtp = some { pend3 with attempts := 4 } ∧
    errKind (verifyOtp false 0 "000000" (wrongN 4)) = some .tooManyAttempts := by
  decide

/-- C3 amended: on an unexpired Pending Verification, each of the first 4
wrong-code calls fails with the incorrect-code condition and only increments
the counter, so after 4 such calls the Pending Verification is retained with
4 recorded attempts; the 5th call fails with the too-many-attempts condition
and discards it; only a subsequent call fails with the no-pending
condition. -/
theorem four_wrong_then_tooMany_then_noPending (rf : Bool) (now : Nat) (c : String)
    (s : CustState) (p : PendingOTP)
    (hexp : ¬ p.expiresAt < now)
    (hfmt : sixDigits (jsTrim c) = true) (hhash : hashOtp (jsTrim c) ≠ p.otpHash) :
    (∀ k, k < 4 →
      verifyOtp rf now c { s with pendingOtp := some { p with attempts := k } } =
        .error (.incorrectCode, { s with pendingOtp := some { p with attempts := k + 1 } })) ∧
    verifyOtp rf now c { s with pendingOtp := some { p with attempts := 4 } } =
      .error (.tooManyAttempts, { s with pendingOtp := none }) ∧
    verifyOtp rf now c { s with pendingOtp := none } =
      .error (.noPending, { s with pendingOtp := none }) := by
  refine ⟨?_, ?_, ?_⟩
  · intro k hk
    exact verifyOtp_wrong_step rf now c _ { p with attempts := k } rfl hexp hk hfmt hhash
  · exact verifyOtp_tooMany rf now c _ { p with attempts := 4 } rfl hexp (le_refl 4)
  · exact verifyOtp_noPending rf now c _ rfl

/-- Witness for the amended C3 at the concrete wrong code `"000000"`. -/
theorem four_wrong_then_tooMany_then_noPending_witness :
    verifyOtp false 0 "000000" { s3 with pendingOtp := some { pend3 with attempts := 4 } } =
      .error (.tooManyAttempts, { s3 with pendingOtp := none }) ∧
    verifyOtp false 0 "000000" { s3 with pendingOtp := some { pend3 with attempts := 3 } } =
      .error (.incorrectCode, { s3 with pendingOtp := some { pend3 with attempts := 4 } }) :=
  ⟨(four_wrong_then_tooMany_then_noPending false 0 "000000" s3 pend3 (by decide) (by decide)
      (by decide)).2.1,
   (four_wrong_then_tooMany_then_noPending false 0 "000000" s3 pend3 (by decide) (by decide)
      (by decide)).1 3 (by decide)⟩

/-- Counterexample to C4 as stated: a Pending Verification created by
`signup` at time 0 carries expiry 600000 (T + 10 minutes), yet a `verifyOtp`
call at exactly that instant raises no error at all — the expiry check is
strict, so "at any time greater than or equal to T + 10 minutes" fails. -/
theorem verifyOtp_at_exact_expiry_not_expired :
    signup 0 sigData s0 b0 = .ok (s1Sig, b1Sig) ∧
    s1Sig.pendingOtp = some
      { otpHash := hashOtp TEST_OTP, expiresAt := 0 + 10 * 60 * 1000, attempts := 0,
        userId := "u1", phoneNumber := "9876543210" } ∧
    errKind (verifyOtp false (0 + 10 * 60 * 1000) TEST_OTP s1Sig) = none := by
  decide

/-- C4 amended: a Pending Verification created at time T (expiry
T + 10 minutes) makes every `verifyOtp` call at any time strictly greater
than T + 10 minutes fail with the expired condition, regardless of the
submitted code, and that call discards the Pending Verification. -/
theorem verifyOtp_after_expiry_fails_expired (rf : Bool) (now t : Nat) (c : String)
    (s : CustState) (p : PendingOTP)
    (hp : s.pendingOtp = some p) (he : p.expiresAt = t + 10 * 60 * 1000)
    (hlt : t + 10 * 60 * 1000 < now) :
    verifyOtp rf now c s = .error (.expired, { s with pendingOtp := none }) :=
  verifyOtp_expired rf now c s p hp (by rw [he]; exact hlt)

/-- Witness for the amended C4, one millisecond past expiry. -/
theorem verifyOtp_after_expiry_fails_expired_witness :
    verifyOtp false 600001 "999999" s3 = .error (.expired, { s3 with pendingOtp := none }) :=
  verifyOtp_after_expiry_fails_expired false 600001 0 "999999" s3 pend3 rfl (by decide)
    (by decide)

/-- Truth of an `Except` being a success, for concrete evaluation. -/
def isOkE (x : Except (AuthError × CustState) CustState) : Bool :=
  match x with
  | .ok _ => true
  | .error _ => false

/-- Counterexample to C9 as stated: on a fresh, unexpired Pending
Verification, the submitted code `"123456 "` (a trailing space, so not
exactly 6 decimal digits) does not fail with the format condition — the
source trims the code first, and the call in fact succeeds. -/
theorem untrimmed_code_skips_format_error :
    s3.pendingOtp = some pend3 ∧ pend3.attempts = 0 ∧
    sixDigits "123456 " = false ∧
    isOkE (verifyOtp false 0 "123456 " s3) = true := by
  decide

/-- C9 amended: on an active, unexpired Pending Verification below the
attempt limit, `verifyOtp` fails with the format condition — leaving the
state exactly unchanged, so no attempt is consumed and the Pending
Verification is kept — exactly when the submitted code, after trimming, is
not 6 decimal digits. -/
theorem format_error_iff_trimmed_not_six_digits (rf : Bool) (now : Nat) (c : String)
    (s : CustState) (p : PendingOTP)
    (hp : s.pendingOtp = some p) (hexp : ¬ p.expiresAt < now) (hatt : p.attempts < 4) :
    verifyOtp rf now c s = .error (.badFormat, s) ↔ sixDigits (jsTrim c) = false := by
  constructor
  · intro h
    cases hx : sixDigits (jsTrim c)
    · rfl
    · exfalso
      by_cases hh : hashOtp (jsTrim c) ≠ p.otpHash
      · rw [verifyOtp_wrong_step rf now c s p hp hexp hatt hx hh] at h
        simp at h
      · simp only [verifyOtp, hp] at h
        rw [if_neg hexp, if_neg (by omega), if_neg (by simp [hx]), if_neg hh] at h
        simp at h
  · intro h
    simp only [verifyOtp, hp]
    rw [if_neg hexp, if_neg (by omega), if_pos h]

/-- Witness for the amended C9 at the malformed code `"12345"`. -/
theorem format_error_iff_trimmed_not_six_digits_witness :
    verifyOtp false 0 "12345" s3 = .error (.badFormat, s3) :=
  (format_error_iff_trimmed_not_six_digits false 0 "12345" s3 pend3 rfl (by decide)
    (by decide)).mpr (by decide)

/-- C10: when the submitted code's hash matches but the subsequent profile
read returns no record (the read-failure case), `verifyOtp` still completes
successfully, discards the Pending Verification and clears its local-storage
trace, while the in-memory user remains unset and the derived authenticated
boolean remains false. -/
theorem verifyOtp_success_missing_profile (now : Nat) (c : String) (s : CustState)
    (p : PendingOTP)
    (hp : s.pendingOtp = some p) (hexp : ¬ p.expiresAt < now) (hatt : p.attempts < 4)
    (hfmt : sixDigits (jsTrim c) = true) (hhash : hashOtp (jsTrim c) = p.otpHash)
    (huser : s.user = none) :
    ∃ s2, verifyOtp true now c s = .ok s2 ∧
      s2.pendingOtp = none ∧ s2.storedOtp = none ∧ s2.user = none ∧
      s2.isAuthenticated = false := by
  simp only [verifyOtp, hp]
  rw [if_neg hexp, if_neg (by omega), if_neg (by simp [hfmt]), if_neg (by simp [hhash])]
  simp only [getUserProfileData, if_true]
  exact ⟨_, rfl, rfl, rfl, huser, by simp [CustState.isAuthenticated, huser]⟩

/-- Witness for C10 on the fresh pending state with the correct test code. -/
theorem verifyOtp_success_missing_profile_witness :
    ∃ s2, verifyOtp true 0 TEST_OTP s3 = .ok s2 ∧
      s2.pendingOtp = none ∧ s2.storedOtp = none ∧ s2.user = none ∧
      s2.isAuthenticated = false :=
  verifyOtp_success_missing_profile 0 TEST_OTP s3 pend3 rfl (by decide) (by decide)
    (by decide) (by decide) (by decide)

/-- C6: a login whose input is not a valid email but a valid phone number
either resolves through the directory to the email on file and then behaves
exactly as a login with that email and the same password (for a stored email
of valid shape, as every registered email is), or — when no Profile Record
has that phone number — fails with the not-found condition for every
possible backend, i.e. before any backend authentication attempt. -/
theorem login_phone_resolution (input password : String) (s : CustState) (b : Backend)
    (hne : isValidEmail input = false) (hph : isValidPhone input = true) :
    (∀ fu em, findUserByPhoneNumber s.dir (jsTrim input) = some fu →
       fu.email = some em → isValidEmail em = true → jsTrim em = em →
       login input password s b = login em password s b) ∧
    (findUserByPhoneNumber s.dir (jsTrim input) = none →
       ∀ b2 : Backend, login input password s b2 = .error .notFound) := by
  constructor
  · intro fu em hfind hem hvE htrim
    simp [login, hne, hph, hfind, hem, hvE, htrim]
  · intro hfind b2
    simp [login, hne, hph, hfind]

/-- An existing, verified Profile Record for `"u1"` created at time 100. -/
def profU1 : UserProfileData :=
  { uid := some "u1", fullName := some "Asha Rao", email := some "a@b.co",
    phoneNumber := some "9876543210", verified := some true,
    createdAt := some 100, updatedAt := some 100 }

/-- A customer state whose directory holds that record. -/
def sDir : CustState := { s0 with dir := [("u1", profU1)] }

/-- Witness for C6: the registered phone resolves and logs in exactly as the
email on file does, and the same phone against an empty directory fails with
the not-found condition. -/
theorem login_phone_resolution_witness :
    login "9876543210" "secret1" sDir b1Sig = login "a@b.co" "secret1" sDir b1Sig ∧
    login "9876543210" "secret1" s0 b1Sig = .error .notFound :=
  ⟨(login_phone_resolution "9876543210" "secret1" sDir b1Sig (by decide) (by decide)).1
      ⟨"u1", some "a@b.co"⟩ "a@b.co" (by decide) rfl (by decide) (by decide),
   (login_phone_resolution "9876543210" "secret1" s0 b1Sig (by decide) (by decide)).2
      (by decide) b1Sig⟩

/-- A customer state with the existing verified record for `"u1"` and a
fresh Pending Verification targeting it. -/
def sC5 : CustState := { sDir with pendingOtp := some pend3 }

/-- C5 evaluated at its failing input: the record for `"u1"` has original
creation timestamp 100; the upsert performed by a successful
code-verification at time 200 overwrites it — `ensureUserProfileExists`
always includes a fresh `createdAt` (and `updatedAt`) in its merge write, so
the original creation timestamp is destroyed even though the caller's write
mentioned only the phone number and the verified flag. -/
theorem verify_upsert_overwrites_createdAt :
    (dirGet sC5.dir "u1").map UserProfileData.createdAt = some (some 100) ∧
    isOkE (verifyOtp false 200 TEST_OTP sC5) = true ∧
    (dirGet (stepState false 200 TEST_OTP sC5).dir "u1").map UserProfileData.createdAt =
      some (some 200) := by
  decide

/-- An unauthenticated admin state over an empty directory. -/
def ownerS0 : OwnerState :=
  { isAuthenticated := false, userId := none, lsAuthFlag := none, lsUid := none,
    lsToken := none, backendUser := none, dir := [] }

/-- Counterexample to C2 as stated: from an unauthenticated admin state, a
storage event reporting an external change of the cached session flag to
`"true"` makes the admin state authenticated, with no identifier check at
all — the backend here has no account whatsoever, and the state's identifier
stays unset. -/
theorem storage_event_grants_admin :
    ownerS0.isAuthenticated = false ∧ ownerS0.userId = none ∧ b0.accounts = [] ∧
    (ownerStep 0 b0 (.storageEv OWNER_AUTH_STORAGE_KEY (some "true")) ownerS0).isAuthenticated
      = true ∧
    (ownerStep 0 b0 (.storageEv OWNER_AUTH_STORAGE_KEY (some "true")) ownerS0).userId = none := by
  decide

/-- C2 amended: the admin-authenticated flag can newly become true only
through an explicit login whose backend-resolved identifier is the fixed
privileged one, through the bootstrap re-validation (cached flag `"true"`,
notified identifier equal to the privileged one, and a directory profile
confirming the privilege flag), or through a storage event mirroring an
external change of the cached session flag to `"true"` — the last path
performs no identifier check. -/
theorem admin_auth_gate (now : Nat) (b : Backend) (e : OwnerEvent) (s : OwnerState)
    (h0 : s.isAuthenticated = false)
    (h1 : (ownerStep now b e s).isAuthenticated = true) :
    (∃ em pw tok, e = .loginEv em pw tok ∧ signIn b (jsTrim em) (jsTrim pw) = .ok ADMIN_UID) ∨
    (∃ tok, e = .authChangedEv (some ADMIN_UID) tok ∧ s.lsAuthFlag = some "true" ∧
       ∃ p, dirGet s.dir ADMIN_UID = some p ∧
         (p.role = some "admin" ∨ p.isAdmin = some true)) ∨
    e = .storageEv OWNER_AUTH_STORAGE_KEY (some "true") := by
  cases e with
  | loginEv em pw tok =>
    rcases hs : signIn b (jsTrim em) (jsTrim pw) with e' | uid
    · simp only [ownerStep, ownerLogin, hs] at h1
      rw [h0] at h1
      exact absurd h1 (by decide)
    · by_cases hu : uid ≠ ADMIN_UID
      · simp only [ownerStep, ownerLogin, hs] at h1
        rw [if_pos hu] at h1
        simp only [] at h1
        rw [h0] at h1
        exact absurd h1 (by decide)
      · push_neg at hu
        exact Or.inl ⟨em, pw, tok, rfl, hu ▸ hs⟩
  | storageEv k v =>
    by_cases hk : k = OWNER_AUTH_STORAGE_KEY
    · subst hk
      by_cases hv : v = some "true"
      · subst hv
        exact Or.inr (Or.inr rfl)
      · exfalso
        have hred : (handleStorage OWNER_AUTH_STORAGE_KEY v
            (applyExternalStorage OWNER_AUTH_STORAGE_KEY v s)).isAuthenticated
            = decide (v = some "true") := by
          simp [handleStorage]
          split_ifs <;> rfl
        simp only [ownerStep] at h1
        rw [hred] at h1
        exact hv (of_decide_eq_true h1)
    · exfalso
      have hred : (handleStorage k v (applyExternalStorage k v s)).isAuthenticated
          = s.isAuthenticated := by
        simp only [handleStorage, applyExternalStorage, if_neg hk]
        split_ifs <;> rfl
      simp only [ownerStep] at h1
      rw [hred, h0] at h1
      exact absurd h1 (by decide)
  | authChangedEv fu tok =>
    cases fu with
    | none =>
      simp only [ownerStep, ownerAuthChanged] at h1
      rw [h0] at h1
      exact absurd h1 (by decide)
    | some uid =>
      by_cases hc : s.lsAuthFlag = some "true" ∧ uid = ADMIN_UID
      · rcases hd : dirGet s.dir ADMIN_UID with _ | p
        · simp only [ownerStep, ownerAuthChanged] at h1
          rw [if_pos hc, hd] at h1
          simp only [] at h1
          rw [h0] at h1
          exact absurd h1 (by decide)
        · by_cases hr : p.role = some "admin" ∨ p.isAdmin = some true
          · have huid : uid = ADMIN_UID := hc.2
            subst huid
            exact Or.inr (Or.inl (Exists.intro tok
              (And.intro rfl (And.intro hc.1 (Exists.intro p (And.intro rfl hr))))))
          · simp only [ownerStep, ownerAuthChanged] at h1
            rw [if_pos hc, hd] at h1
            simp only [] at h1
            rw [if_neg hr, h0] at h1
            exact absurd h1 (by decide)
      · simp only [ownerStep, ownerAuthChanged] at h1
        rw [if_neg hc, h0] at h1
        exact absurd h1 (by decide)
  | logoutEv =>
    simp only [ownerStep, ownerLogout] at h1
    exact absurd h1 (by decide)

/-- Witness for the amended C2: the storage-event path at a concrete
unauthenticated state. -/
theorem admin_auth_gate_witness :
    (∃ em pw tok, OwnerEvent.storageEv OWNER_AUTH_STORAGE_KEY (some "true") =
        .loginEv em pw tok ∧ signIn b0 (jsTrim em) (jsTrim pw) = .ok ADMIN_UID) ∨
    (∃ tok, OwnerEvent.storageEv OWNER_AUTH_STORAGE_KEY (some "true") =
        .authChangedEv (some ADMIN_UID) tok ∧ ownerS0.lsAuthFlag = some "true" ∧
       ∃ p, dirGet ownerS0.dir ADMIN_UID = some p ∧
         (p.role = some "admin" ∨ p.isAdmin = some true)) ∨
    OwnerEvent.storageEv OWNER_AUTH_STORAGE_KEY (some "true") =
      .storageEv OWNER_AUTH_STORAGE_KEY (some "true") :=
  admin_auth_gate 0 b0 (.storageEv OWNER_AUTH_STORAGE_KEY (some "true")) ownerS0
    (by decide) (by decide)

/-- A backend holding one non-admin account. -/
def b7 : Backend := { accounts := [⟨"x@y.co", "pw", "mallory"⟩], newUid := "u9" }

/-- An admin state with the Admin Session Record set (cached flag,
identifier and bearer credential present). -/
def ownerSAuth : OwnerState :=
  { isAuthenticated := true, userId := some ADMIN_UID, lsAuthFlag := some "true",
    lsUid := some ADMIN_UID, lsToken := some "tok", backendUser := some ADMIN_UID, dir := [] }

/-- Counterexample to C7 as stated: an admin login that authenticates at the
backend as a non-privileged identifier fails, but it does not clear the
Admin Session Record — starting from a state whose record is set, the cached
flag, cached identifier and the in-memory authenticated flag all survive the
failed call. -/
theorem nonadmin_login_record_not_cleared :
    (ownerLogin 0 b7 "x@y.co" "pw" none ownerSAuth).1 = .notAuthorized ∧
    (ownerLogin 0 b7 "x@y.co" "pw" none ownerSAuth).2.lsAuthFlag = some "true" ∧
    (ownerLogin 0 b7 "x@y.co" "pw" none ownerSAuth).2.lsUid = some ADMIN_UID ∧
    (ownerLogin 0 b7 "x@y.co" "pw" none ownerSAuth).2.isAuthenticated = true := by
  decide

/-- C7 amended: whenever backend authentication succeeds with an identifier
other than the fixed privileged one, the admin login signs out of the
backend, fails with the not-authorized condition, and leaves the whole admin
state — in particular the Admin Session Record — exactly as it was; when the
record was already clear, the admin state therefore remains
unauthenticated. -/
theorem nonadmin_login_leaves_record_unchanged (now : Nat) (b : Backend) (em pw : String)
    (tok : Option String) (uid : String) (s : OwnerState)
    (hs : signIn b (jsTrim em) (jsTrim pw) = .ok uid) (hne : uid ≠ ADMIN_UID) :
    ownerLogin now b em pw tok s = (.notAuthorized, { s with backendUser := none }) := by
  simp only [ownerLogin, hs]
  rw [if_pos hne]

/-- Witness for the amended C7 at a concrete non-admin credential. -/
theorem nonadmin_login_leaves_record_unchanged_witness :
    ownerLogin 0 b7 "x@y.co" "pw" none ownerS0 =
      (.notAuthorized, { ownerS0 with backendUser := none }) :=
  nonadmin_login_leaves_record_unchanged 0 b7 "x@y.co" "pw" none "mallory" ownerS0
    (by decide) (by decide)
